import Mathlib

/-!
Verification of the model-evaluation subsystem specification against the
repository sources.

The repository ships the test suite and a plugin evaluator
(`tests/resources/mlflow-test-plugin/mlflow_test_plugin/dummy_evaluator.py`)
for the evaluation subsystem; the subsystem implementation itself
(`mlflow/models/evaluation/base.py`, `default_evaluator.py`, `artifacts.py`)
is not part of the source tree.  Definitions below that embed the missing
implementation are marked `Modelled from the spec:` in their doc comment and
are pinned, wherever the tests exercise the behaviour, to the behaviour the
in-repository tests assert.  The dummy evaluator is embedded directly from
its source file.

Conventions of the embedding:
* Python numbers are `ℚ` (floating point is out of scope; every numeric
  identity claimed by the spec at the tested inputs is exact in `ℚ`).
* Python dynamic values are the inductive `PyVal`; dictionaries are
  association lists.
* Fallible code returns `Except String`; the carried string is the exception
  message.
* Machine integers in the hashing code are `Nat` reduced mod `2 ^ 32` /
  `2 ^ 64` where overflow matters.
-/

namespace MLEval

/-! ## MD5 (RFC 1321), executable, over byte lists -/

/-- The 64 MD5 sine-derived round constants. -/
def md5K : List Nat :=
  [0xd76aa478, 0xe8c7b756, 0x242070db, 0xc1bdceee,
   0xf57c0faf, 0x4787c62a, 0xa8304613, 0xfd469501,
   0x698098d8, 0x8b44f7af, 0xffff5bb1, 0x895cd7be,
   0x6b901122, 0xfd987193, 0xa679438e, 0x49b40821,
   0xf61e2562, 0xc040b340, 0x265e5a51, 0xe9b6c7aa,
   0xd62f105d, 0x02441453, 0xd8a1e681, 0xe7d3fbc8,
   0x21e1cde6, 0xc33707d6, 0xf4d50d87, 0x455a14ed,
   0xa9e3e905, 0xfcefa3f8, 0x676f02d9, 0x8d2a4c8a,
   0xfffa3942, 0x8771f681, 0x6d9d6122, 0xfde5380c,
   0xa4beea44, 0x4bdecfa9, 0xf6bb4b60, 0xbebfbc70,
   0x289b7ec6, 0xeaa127fa, 0xd4ef3085, 0x04881d05,
   0xd9d4d039, 0xe6db99e5, 0x1fa27cf8, 0xc4ac5665,
   0xf4292244, 0x432aff97, 0xab9423a7, 0xfc93a039,
   0x655b59c3, 0x8f0ccc92, 0xffeff47d, 0x85845dd1,
   0x6fa87e4f, 0xfe2ce6e0, 0xa3014314, 0x4e0811a1,
   0xf7537e82, 0xbd3af235, 0x2ad7d2bb, 0xeb86d391]

/-- The 64 MD5 per-round left-rotation amounts. -/
def md5S : List Nat :=
  [7, 12, 17, 22, 7, 12, 17, 22, 7, 12, 17, 22, 7, 12, 17, 22,
   5, 9, 14, 20, 5, 9, 14, 20, 5, 9, 14, 20, 5, 9, 14, 20,
   4, 11, 16, 23, 4, 11, 16, 23, 4, 11, 16, 23, 4, 11, 16, 23,
   6, 10, 15, 21, 6, 10, 15, 21, 6, 10, 15, 21, 6, 10, 15, 21]

/-- Bitwise complement restricted to 32 bits. -/
def not32 (x : Nat) : Nat := Nat.xor x 0xffffffff

/-- 32-bit left rotation (input assumed `< 2 ^ 32`). -/
def rotl32 (x n : Nat) : Nat :=
  Nat.lor ((x <<< n) % 4294967296) (x >>> (32 - n))

/-- The four 32-bit MD5 chaining registers. -/
structure MD5State where
  a : Nat
  b : Nat
  c : Nat
  d : Nat
deriving DecidableEq

/-- MD5 initial chaining value. -/
def md5Init : MD5State := ⟨0x67452301, 0xefcdab89, 0x98badcfe, 0x10325476⟩

/-- Little-endian 32-bit words of a byte list (trailing partial word dropped;
blocks fed to it are always 64 bytes). -/
def le32Words : List Nat → List Nat
  | b0 :: b1 :: b2 :: b3 :: rest =>
      (b0 + 256 * b1 + 65536 * b2 + 16777216 * b3) :: le32Words rest
  | _ => []

/-- One MD5 round `i` (0–63) on message words `m`. -/
def md5Round (m : List Nat) (st : MD5State) (i : Nat) : MD5State :=
  let f :=
    if i < 16 then Nat.lor (Nat.land st.b st.c) (Nat.land (not32 st.b) st.d)
    else if i < 32 then Nat.lor (Nat.land st.d st.b) (Nat.land (not32 st.d) st.c)
    else if i < 48 then Nat.xor st.b (Nat.xor st.c st.d)
    else Nat.xor st.c (Nat.lor st.b (not32 st.d))
  let g :=
    if i < 16 then i
    else if i < 32 then (5 * i + 1) % 16
    else if i < 48 then (3 * i + 5) % 16
    else (7 * i) % 16
  let tmp := (f + st.a + md5K.getD i 0 + m.getD g 0) % 4294967296
  ⟨st.d, (st.b + rotl32 tmp (md5S.getD i 0)) % 4294967296, st.b, st.c⟩

/-- Compress one 64-byte block into the chaining state. -/
def md5ProcessBlock (st : MD5State) (block : List Nat) : MD5State :=
  let m := le32Words block
  let r := (List.range 64).foldl (md5Round m) st
  ⟨(st.a + r.a) % 4294967296, (st.b + r.b) % 4294967296,
   (st.c + r.c) % 4294967296, (st.d + r.d) % 4294967296⟩

/-- Little-endian byte expansion of `n` to `width` bytes. -/
def leBytes (width n : Nat) : List Nat :=
  (List.range width).map fun k => n / 2 ^ (8 * k) % 256

/-- MD5 padding: `0x80`, zeros to 56 mod 64, then the 64-bit little-endian
bit length. -/
def md5Pad (msg : List Nat) : List Nat :=
  msg ++ [0x80] ++ List.replicate ((119 - msg.length % 64) % 64) 0
      ++ leBytes 8 ((8 * msg.length) % 18446744073709551616)

/-- Split into 64-byte chunks; fuel-structured so that it reduces in the
kernel (the fuel is the list length, which strictly bounds the recursion). -/
def chunksAux : Nat → List Nat → List (List Nat)
  | 0, _ => []
  | _ + 1, [] => []
  | fuel + 1, x :: xs => (x :: xs).take 64 :: chunksAux fuel ((x :: xs).drop 64)

/-- Split a byte list into 64-byte chunks. -/
def chunks64 (l : List Nat) : List (List Nat) := chunksAux l.length l

/-- Full MD5: 16-byte digest of a byte list. -/
def md5Bytes (msg : List Nat) : List Nat :=
  let r := (chunks64 (md5Pad msg)).foldl md5ProcessBlock md5Init
  leBytes 4 r.a ++ leBytes 4 r.b ++ leBytes 4 r.c ++ leBytes 4 r.d

/-! ## Dataset content hashing

Embedding of `_gen_md5_for_arraylike_obj` and the `EvaluationDataset.hash`
property.  The implementation lives in `mlflow/models/evaluation/base.py`,
which is not under the source tree; only its tests are
(`tests/models/test_evaluation.py::test_gen_md5_for_arraylike_obj`). -/

/-- Modelled from the spec: the bound on sampled rows used by the digest
(`EvaluationDataset.NUM_SAMPLE_ROWS_FOR_HASH`).  The hashing test pins it:
with a 21-element array, a value inserted at position 10 is outside both the
head sample and the tail sample, which requires the bound to be at most 10;
the upstream constant is 5. -/
def NUM_SAMPLE_ROWS_FOR_HASH : Nat := 5

/-- Pack a list of (unsigned 64-bit) values as little-endian 8-byte words,
as `struct.pack` with an unsigned-long-long format does. -/
def packLE64 (ns : List Nat) : List Nat :=
  ns.flatMap fun n => leBytes 8 (n % 18446744073709551616)

/-- Modelled from the spec: the byte encoding of a 1-D array-like object
(`_hash_array_like_obj_as_bytes` / `_hash_ndarray_as_bytes` in the missing
`base.py`): the packed row contents followed by the packed shape.  The
per-value mixing (`pd.util.hash_array` upstream) is modelled as the identity
encoding of each value, which keeps the encoding injective on the sampled
window. -/
def hashArrayLikeBytes (data : List Nat) : List Nat :=
  packLE64 data ++ packLE64 [data.length]

/-- Modelled from the spec: the byte stream `_gen_md5_for_arraylike_obj`
feeds into the MD5 accumulator — the array length, then either the whole
content (short arrays) or the first and last `NUM_SAMPLE_ROWS_FOR_HASH`
rows only. -/
def genMd5Stream (data : List Nat) : List Nat :=
  packLE64 [data.length] ++
    (if data.length < NUM_SAMPLE_ROWS_FOR_HASH * 2 then
      hashArrayLikeBytes data
    else
      hashArrayLikeBytes (data.take NUM_SAMPLE_ROWS_FOR_HASH) ++
        hashArrayLikeBytes (data.drop (data.length - NUM_SAMPLE_ROWS_FOR_HASH)))

/-- Modelled from the spec: `_gen_md5_for_arraylike_obj` applied to a fresh
MD5 accumulator, as the test helper `get_md5` does. -/
def getMd5 (data : List Nat) : List Nat := md5Bytes (genMd5Stream data)

/-- Modelled from the spec: the byte stream contributed by a 2-D feature
table — flattened sampled row contents plus the shape. -/
def hash2DArrayBytes (rows : List (List Nat)) : List Nat :=
  packLE64 rows.flatten ++
    packLE64 [rows.length, (rows.head?.map List.length).getD 0]

/-- Modelled from the spec: the sampled byte stream of a 2-D feature table
(same sampling policy as `genMd5Stream`). -/
def genMd5Stream2D (rows : List (List Nat)) : List Nat :=
  packLE64 [rows.length] ++
    (if rows.length < NUM_SAMPLE_ROWS_FOR_HASH * 2 then
      hash2DArrayBytes rows
    else
      hash2DArrayBytes (rows.take NUM_SAMPLE_ROWS_FOR_HASH) ++
        hash2DArrayBytes (rows.drop (rows.length - NUM_SAMPLE_ROWS_FOR_HASH)))

/-- Modelled from the spec: `EvaluationDataset.hash` — one MD5 digest over
the sampled feature stream followed by the sampled label stream, computed
once from the normalized data at construction. -/
def datasetHash (features : List (List Nat)) (labels : List Nat) : List Nat :=
  md5Bytes (genMd5Stream2D features ++ genMd5Stream labels)

/-- The 20-element array `list(range(20))` of the hashing test. -/
def hashTestList0 : List Nat := List.range 20

/-- The hashing test array with the first element replaced by 100. -/
def hashTestList1 : List Nat := 100 :: hashTestList0.drop 1

/-- The hashing test array with the last element replaced by 100. -/
def hashTestList2 : List Nat := hashTestList0.take 19 ++ [100]

/-- The hashing test array with 100 inserted at (unsampled) position 10. -/
def hashTestList3 : List Nat := hashTestList0.take 10 ++ [100] ++ hashTestList0.drop 10

/-- The hashing test array with 99 inserted at (unsampled) position 10. -/
def hashTestList4 : List Nat := hashTestList0.take 10 ++ [99] ++ hashTestList0.drop 10

/-! ## Python dynamic values -/

/-- A Python dictionary key as the evaluation code can observe it: a string
or a number (the custom-metric validation only distinguishes string keys
from everything else, and the tested offender is a numeric key). -/
inductive PyKey where
  | kstr (s : String)
  | knum (q : ℚ)
deriving DecidableEq

/-- A Python runtime value, as far as the evaluation subsystem inspects one:
`None`, booleans, numbers, strings, lists, tuples, dictionaries, and opaque
objects (figures, arrays, arbitrary user objects) that are only ever carried
around, never destructured. -/
inductive PyVal where
  | pnone
  | pbool (b : Bool)
  | pnum (q : ℚ)
  | pstr (s : String)
  | plist (xs : List PyVal)
  | ptuple (xs : List PyVal)
  | pdict (entries : List (PyKey × PyVal))
  | pobj (tag : String)

/-! ## Model-type inference from labels

Embedding of `_infer_model_type_by_labels` from the missing
`mlflow/models/evaluation/default_evaluator.py`, pinned by
`tests/models/test_default_evaluator.py::test_infer_model_type_by_labels`. -/

/-- A label value: boolean, string, or numeric (a numeric label is integral
exactly when its denominator is 1). -/
inductive LabelVal where
  | lb (b : Bool)
  | ls (s : String)
  | ln (q : ℚ)
deriving DecidableEq

/-- Whether a label value is a boolean. -/
def LabelVal.isBool : LabelVal → Bool
  | .lb _ => true
  | _ => false

/-- Whether a label value is a string. -/
def LabelVal.isStr : LabelVal → Bool
  | .ls _ => true
  | _ => false

/-- Whether a label value is numeric. -/
def LabelVal.isNum : LabelVal → Bool
  | .ln _ => true
  | _ => false

/-- Whether a label value is an integral number. -/
def LabelVal.isIntegral : LabelVal → Bool
  | .ln q => q.den == 1
  | _ => false

/-- A label array: its values plus whether the enclosing series carries a
declared categorical dtype. -/
structure LabelsM where
  isCategoricalDtype : Bool
  values : List LabelVal
deriving DecidableEq

/-- The pandas-style dtype lattice the inference code distinguishes. -/
inductive PDType where
  | category
  | boolean
  | string
  | integer
  | float
  | object
deriving DecidableEq

/-- Modelled from the spec: the converted dtype of a value sequence, as
`pandas.Series(values).convert_dtypes()` reports it — declared categorical
dtype wins; otherwise all-boolean, all-string, all-integral-numeric and
all-numeric sequences get the corresponding dtype; anything else (or an
empty sequence) is object. -/
def convertedDtype (isCategoricalDtype : Bool) (values : List LabelVal) : PDType :=
  if isCategoricalDtype then .category
  else if !values.isEmpty && values.all LabelVal.isBool then .boolean
  else if !values.isEmpty && values.all LabelVal.isStr then .string
  else if !values.isEmpty && values.all LabelVal.isIntegral then .integer
  else if !values.isEmpty && values.all LabelVal.isNum then .float
  else .object

/-- Modelled from the spec: whether a label array counts as categorical —
declared categorical, string, or boolean dtype. -/
def isCategoricalLabels (l : LabelsM) : Bool :=
  match convertedDtype l.isCategoricalDtype l.values with
  | .category => true
  | .string => true
  | .boolean => true
  | _ => false

/-- Modelled from the spec: whether a label array counts as continuous —
floating dtype, i.e. numeric with at least one non-integral value. -/
def isContinuousLabels (l : LabelsM) : Bool :=
  convertedDtype l.isCategoricalDtype l.values == .float

/-- Modelled from the spec: `_infer_model_type_by_labels` — categorical
labels imply a classifier, continuous numeric labels a regressor, and
anything else yields no inferred type (`None` in the tests: the evaluator
does not guess). -/
def _infer_model_type_by_labels (l : LabelsM) : Option String :=
  if isCategoricalLabels l then some "classifier"
  else if isContinuousLabels l then some "regressor"
  else none

/-- The claim side of C7, written from the claim text: boolean labels,
string-categorical labels, and (small-cardinality) declared-categorical
labels imply a classifier. -/
def claimClassifierLabels (l : LabelsM) : Bool :=
  l.isCategoricalDtype ||
    (!l.values.isEmpty && l.values.all LabelVal.isBool) ||
    (!l.values.isEmpty && l.values.all LabelVal.isStr)

/-- The claim side of C7, written from the claim text: purely continuous
numeric labels (all numeric, not all integral, and not a categorical
series) imply a regressor. -/
def claimRegressorLabels (l : LabelsM) : Bool :=
  !claimClassifierLabels l &&
    (!l.values.isEmpty && l.values.all LabelVal.isNum &&
      !l.values.all LabelVal.isIntegral)

/-! ## Kernel-explainability background reduction

Embedding of `_compute_df_mode_or_mean` from the missing
`default_evaluator.py`, pinned by
`tests/models/test_default_evaluator.py::test_compute_df_mode_or_mean`. -/

/-- A dataframe cell value. -/
inductive CellVal where
  | cb (b : Bool)
  | cs (s : String)
  | cq (q : ℚ)
deriving DecidableEq

/-- Reuse of the label-side kind tests for cells. -/
def CellVal.toLabelVal : CellVal → LabelVal
  | .cb b => .lb b
  | .cs s => .ls s
  | .cq q => .ln q

/-- A dataframe column: name, declared-categorical flag, and cells, `none`
standing for a missing value (`NaN` / `None`). -/
structure ColM where
  name : String
  isCategoricalDtype : Bool
  cells : List (Option CellVal)
deriving DecidableEq

/-- The non-missing cell values of a column. -/
def ColM.nonMissing (c : ColM) : List CellVal :=
  c.cells.filterMap id

/-- Modelled from the spec: `_is_continuous` on a column — its converted
dtype (over the non-missing values, as pandas dtype conversion behaves) is
floating. -/
def isContinuousCol (c : ColM) : Bool :=
  convertedDtype c.isCategoricalDtype (c.nonMissing.map CellVal.toLabelVal) == .float

/-- Mean of the numeric non-missing cells of a column (pandas
`DataFrame.mean` semantics: missing values excluded). -/
def colMean (c : ColM) : ℚ :=
  let vals := c.nonMissing.filterMap fun v =>
    match v with
    | .cq q => some q
    | _ => none
  vals.sum / vals.length

/-- Number of occurrences of a value among the non-missing cells. -/
def countOcc (vals : List CellVal) (v : CellVal) : Nat := vals.count v

/-- Mode of a value list: a most frequent value, the first such occurrence
winning ties (the tests exercise no ties). `none` on an empty list. -/
def modeOfList (vals : List CellVal) : Option CellVal :=
  vals.foldl
    (fun best v =>
      match best with
      | none => some v
      | some b => if countOcc vals v > countOcc vals b then some v else best)
    none

/-- Mode of a column over its non-missing cells, with a junk default for an
all-missing column (such a column never satisfies the claim-side
hypotheses). -/
def colMode (c : ColM) : CellVal :=
  (modeOfList c.nonMissing).getD (.cq 0)

/-- Modelled from the spec: `_compute_df_mode_or_mean` — the mean for each
continuous column, the mode for every other column, merged means-first as
the dictionary union in the source order does. -/
def _compute_df_mode_or_mean (df : List ColM) : List (String × CellVal) :=
  (df.filter isContinuousCol).map (fun c => (c.name, .cq (colMean c))) ++
    (df.filter (fun c => !isContinuousCol c)).map (fun c => (c.name, colMode c))

/-- The claim side of C8: a numeric column — every non-missing cell is a
number (and the column is not declared categorical). -/
def claimNumericCol (c : ColM) : Bool :=
  !c.isCategoricalDtype && !c.nonMissing.isEmpty &&
    c.nonMissing.all fun v => (CellVal.toLabelVal v).isNum

/-- The claim side of C8, as the counterexample forces it to be amended: a
continuous numeric column — numeric with at least one non-integral value. -/
def claimContinuousNumericCol (c : ColM) : Bool :=
  claimNumericCol c &&
    !(c.nonMissing.all fun v => (CellVal.toLabelVal v).isIntegral)

/-- The claim side of C8: a categorical, boolean, or text column. -/
def claimCategoricalBoolOrTextCol (c : ColM) : Bool :=
  !c.nonMissing.isEmpty &&
    (c.isCategoricalDtype ||
      c.nonMissing.all (fun v => (CellVal.toLabelVal v).isBool) ||
      c.nonMissing.all (fun v => (CellVal.toLabelVal v).isStr))

/-- The dataframe of `test_compute_df_mode_or_mean`, columns `a`–`h`. -/
def modeOrMeanTestDf : List ColM :=
  [⟨"a", false, [some (.cq 2), some (.cq 2), some (.cq 5)]⟩,
   ⟨"b", false, [some (.cq 3), some (.cq 3), some (.cq 5)]⟩,
   ⟨"c", false, [some (.cq 2), some (.cq 2), some (.cq (13 / 2))]⟩,
   ⟨"d", false, [some (.cb true), some (.cb false), some (.cb true)]⟩,
   ⟨"e", false, [some (.cs "abc"), some (.cs "b"), some (.cs "abc")]⟩,
   ⟨"f", false, [some (.cq (3 / 2)), some (.cq (5 / 2)), none]⟩,
   ⟨"g", false, [some (.cs "ab"), some (.cs "ab"), none]⟩,
   ⟨"h", true, [some (.cq 2), some (.cq 2), some (.cq (13 / 2))]⟩]

/-! ## Custom-metric evaluation protocol

Embedding of `_evaluate_custom_metric` from the missing
`default_evaluator.py`, pinned by
`tests/models/test_default_evaluator.py::test_evaluate_custom_metric_incorrect_return_formats`
and `::test_evaluate_custom_metric_success`. -/

/-- Modelled from the spec: a `_CustomMetric` record (function, name, index,
description).  The user function is abstracted by the value it returns for
the working dataframe and builtin metrics at hand; the index is supplied by
the enumeration position at the call site. -/
structure CustomMetricM where
  name : String
  ret : PyVal

/-- Whether every entry of a metrics mapping has a string key and a numeric
value. -/
def validMetricsEntries (m : List (PyKey × PyVal)) : Bool :=
  m.all fun p =>
    (match p.1 with | .kstr _ => true | _ => false) &&
      (match p.2 with | .pnum _ => true | _ => false)

/-- Whether every entry of an artifacts mapping has a string key. -/
def validArtifactEntries (a : List (PyKey × PyVal)) : Bool :=
  a.all fun p => match p.1 with | .kstr _ => true | _ => false

/-- The typed view of a validated metrics mapping. -/
def typedMetrics (m : List (PyKey × PyVal)) : List (String × ℚ) :=
  m.filterMap fun p =>
    match p with
    | (.kstr k, .pnum q) => some (k, q)
    | _ => none

/-- The typed view of a validated artifacts mapping. -/
def typedArtifacts (a : List (PyKey × PyVal)) : List (String × PyVal) :=
  a.filterMap fun p =>
    match p with
    | (.kstr k, v) => some (k, v)
    | _ => none

/-- The exception-message header naming the offending custom-metric function
and its position. -/
def customMetricHeader (name : String) (index : Nat) : String :=
  "Custom metric function " ++ name ++ " at index " ++ toString index ++
    " in the custom_metrics parameter"

/-- Message suffix for a metrics mapping with a non-string key or
non-numeric value. -/
def badMetricsSuffix : String :=
  " did not return metrics as a dictionary of string metric names with numerical values."

/-- Message suffix for an artifacts value that is not a mapping with string
keys. -/
def badArtifactsSuffix : String :=
  " did not return artifacts as a dictionary of string artifact names with their corresponding objects."

/-- Message suffix for a return value of an unexpected shape. -/
def badFormatSuffix : String := " did not return in an expected format."

/-- Modelled from the spec: `_evaluate_custom_metric` — invoke the user
function (abstracted by its return value), reject `None`, accept a metrics
mapping alone or a `(metrics, artifacts)` pair, validate string keys and
numeric metric values, and destructure a conforming return. -/
def _evaluate_custom_metric (cm : CustomMetricM) (index : Nat) :
    Except String (List (String × ℚ) × Option (List (String × PyVal))) :=
  let header := customMetricHeader cm.name index
  match cm.ret with
  | .pnone => .error (header ++ " returned None.")
  | .pdict m =>
      if validMetricsEntries m then .ok (typedMetrics m, none)
      else .error (header ++ badMetricsSuffix)
  | .ptuple [.pdict m, a] =>
      if validMetricsEntries m then
        match a with
        | .pdict arts =>
            if validArtifactEntries arts then
              .ok (typedMetrics m, some (typedArtifacts arts))
            else .error (header ++ badArtifactsSuffix)
        | _ => .error (header ++ badArtifactsSuffix)
      else .error (header ++ badMetricsSuffix)
  | _ => .error (header ++ badFormatSuffix)

/-- The claim side of C3: a conforming custom-metric return — a metrics
mapping with string keys and numeric values, or a pair of such a mapping
and an artifacts mapping with string keys. -/
def conformingCustomMetricReturn : PyVal → Bool
  | .pdict m => validMetricsEntries m
  | .ptuple [.pdict m, .pdict a] => validMetricsEntries m && validArtifactEntries a
  | _ => false

/-- The claim side of C3: destructuring of a conforming return into
`(metrics, artifacts)`. -/
def destructureCustomMetricReturn :
    PyVal → List (String × ℚ) × Option (List (String × PyVal))
  | .pdict m => (typedMetrics m, none)
  | .ptuple [.pdict m, .pdict a] => (typedMetrics m, some (typedArtifacts a))
  | _ => ([], none)

/-! ## Artifacts and evaluation results -/

/-- The concrete artifact kinds
(`mlflow/models/evaluation/artifacts.py`, not under the source tree). -/
inductive ArtifactKind where
  | image
  | csv
  | json
  | npy
  | parquet
  | text
  | pickle
deriving DecidableEq

/-- Serialization extension per artifact kind. -/
def artifactExt : ArtifactKind → String
  | .image => "png"
  | .csv => "csv"
  | .json => "json"
  | .npy => "npy"
  | .parquet => "parquet"
  | .text => "txt"
  | .pickle => "pickle"

/-- Fully qualified class name per artifact kind, as written into
`artifacts_metadata.json`. -/
def artifactClassName : ArtifactKind → String
  | .image => "mlflow.models.evaluation.artifacts.ImageEvaluationArtifact"
  | .csv => "mlflow.models.evaluation.artifacts.CsvEvaluationArtifact"
  | .json => "mlflow.models.evaluation.artifacts.JsonEvaluationArtifact"
  | .npy => "mlflow.models.evaluation.artifacts.NumpyEvaluationArtifact"
  | .parquet => "mlflow.models.evaluation.artifacts.ParquetEvaluationArtifact"
  | .text => "mlflow.models.evaluation.artifacts.TextEvaluationArtifact"
  | .pickle => "mlflow.models.evaluation.artifacts.PickleEvaluationArtifact"

/-- Recover an artifact kind from its class name (the load-side class
resolution). -/
def artifactKindOfClassName (s : String) : Option ArtifactKind :=
  if s == artifactClassName .image then some .image
  else if s == artifactClassName .csv then some .csv
  else if s == artifactClassName .json then some .json
  else if s == artifactClassName .npy then some .npy
  else if s == artifactClassName .parquet then some .parquet
  else if s == artifactClassName .text then some .text
  else if s == artifactClassName .pickle then some .pickle
  else none

/-- An evaluation artifact: its store uri, concrete kind, and content.  The
byte-level serialization of the content is abstracted (the content value
itself stands for its serialized form). -/
structure EvaluationArtifactM where
  uri : String
  kind : ArtifactKind
  content : PyVal

/-- An evaluation result: metrics mapping and named artifacts. -/
structure EvaluationResultM where
  metrics : List (String × ℚ)
  artifacts : List (String × EvaluationArtifactM)

/-- What one `evaluate()` call persists to the tracking run: logged metric
keys with values, and logged artifact file names. -/
structure RunPersisted where
  metrics : List (String × ℚ)
  artifacts : List String
deriving DecidableEq

/-! ## EvaluationResult.save / EvaluationResult.load

Modelled from the spec (`base.py` is not under the source tree):
`save(dir)` writes `metrics.json`, `artifacts_metadata.json` mapping each
artifact name to its uri and class name, and an `artifacts/` subdirectory
with each artifact serialized as `<name>.<ext>`; `load(dir)` is the inverse
for metrics and artifact identity. -/

/-- A JSON value (file contents of the two metadata files). -/
inductive Json where
  | num (q : ℚ)
  | str (s : String)
  | arr (xs : List Json)
  | obj (fields : List (String × Json))

/-- The on-disk image of a saved `EvaluationResult` directory: the two JSON
files plus the `artifacts/` subdirectory (file name to serialized
content). -/
structure SavedEvaluationResult where
  metricsFile : Json
  artifactsMetadataFile : Json
  artifactsDir : List (String × PyVal)

/-- Serialized file name of an artifact: `<artifact_name>.<ext>`. -/
def artifactFileName (name : String) (a : EvaluationArtifactM) : String :=
  name ++ "." ++ artifactExt a.kind

/-- Modelled from the spec: `EvaluationResult.save`. -/
def EvaluationResultM.save (r : EvaluationResultM) : SavedEvaluationResult :=
  { metricsFile := .obj (r.metrics.map fun p => (p.1, .num p.2)),
    artifactsMetadataFile := .obj (r.artifacts.map fun p =>
      (p.1, .obj [("uri", .str p.2.uri),
                  ("class_name", .str (artifactClassName p.2.kind))])),
    artifactsDir := r.artifacts.map fun p => (artifactFileName p.1 p.2, p.2.content) }

/-- Decode the entries of a flat metrics mapping. -/
def decodeMetricEntries : List (String × Json) → Except String (List (String × ℚ))
  | [] => .ok []
  | p :: rest =>
      match p.2 with
      | .num q => do
          let tail ← decodeMetricEntries rest
          .ok ((p.1, q) :: tail)
      | _ => .error "metrics value is not a number"

/-- Decode the flat metrics mapping of `metrics.json`. -/
def decodeMetricsJson : Json → Except String (List (String × ℚ))
  | .obj fields => decodeMetricEntries fields
  | _ => .error "metrics.json does not hold a flat metrics mapping"

/-- Decode one `artifacts_metadata.json` entry and reload the artifact from
its serialized file. -/
def decodeArtifactEntry (dir : List (String × PyVal)) (p : String × Json) :
    Except String (String × EvaluationArtifactM) :=
  match p.2 with
  | .obj [("uri", .str uri), ("class_name", .str cn)] =>
      match artifactKindOfClassName cn with
      | some kind =>
          match dir.lookup (p.1 ++ "." ++ artifactExt kind) with
          | some content => .ok (p.1, ⟨uri, kind, content⟩)
          | none => .error "serialized artifact file is missing"
      | none => .error "unknown artifact class"
  | _ => .error "artifacts_metadata.json entry is malformed"

/-- Decode all `artifacts_metadata.json` entries in order. -/
def decodeArtifactEntries (dir : List (String × PyVal)) :
    List (String × Json) → Except String (List (String × EvaluationArtifactM))
  | [] => .ok []
  | p :: rest => do
      let a ← decodeArtifactEntry dir p
      let tail ← decodeArtifactEntries dir rest
      .ok (a :: tail)

/-- Modelled from the spec: `EvaluationResult.load`. -/
def EvaluationResultM.load (s : SavedEvaluationResult) :
    Except String EvaluationResultM := do
  let metrics ← decodeMetricsJson s.metricsFile
  match s.artifactsMetadataFile with
  | .obj entries => do
      let artifacts ← decodeArtifactEntries s.artifactsDir entries
      .ok ⟨metrics, artifacts⟩
  | _ => .error "artifacts_metadata.json does not hold a mapping"

/-! ## Metric library (the rational-valued part the claims touch) -/

/-- `sklearn.metrics.mean_absolute_error` over exact rationals. -/
def skMeanAbsoluteError (y yPred : List ℚ) : ℚ :=
  (List.zipWith (fun a b => |a - b|) y yPred).sum / y.length

/-- `sklearn.metrics.mean_squared_error` over exact rationals. -/
def skMeanSquaredError (y yPred : List ℚ) : ℚ :=
  (List.zipWith (fun a b => (a - b) ^ 2) y yPred).sum / y.length

/-- `sklearn.metrics.accuracy_score` over exact rationals. -/
def skAccuracyScore (y yPred : List ℚ) : ℚ :=
  (List.zipWith (fun a b => if a = b then (1 : ℚ) else 0) y yPred).sum / y.length

/-- Modelled from the spec: `_get_regressor_metrics` of the missing
`default_evaluator.py` (key set pinned by `test_get_regressor_metrics`).
`root_mean_squared_error` is omitted from the rational-valued embedding:
its value is an irrational square root and no claim touches it. -/
def _get_regressor_metrics (y yPred : List ℚ) : List (String × ℚ) :=
  let n : ℚ := y.length
  let sqErrSum := (List.zipWith (fun a b => (a - b) ^ 2) y yPred).sum
  let mean := y.sum / n
  [("example_count", n),
   ("mean_absolute_error", skMeanAbsoluteError y yPred),
   ("mean_squared_error", skMeanSquaredError y yPred),
   ("sum_on_label", y.sum),
   ("mean_on_label", mean),
   ("r2_score", 1 - sqErrSum / ((y.map fun a => (a - mean) ^ 2).sum)),
   ("max_error", (List.zipWith (fun a b => |a - b|) y yPred).foldr max 0),
   ("mean_absolute_percentage_error",
     (List.zipWith (fun a b => |a - b| / |a|) y yPred).sum / n)]

/-- The metric keys `_get_regressor_metrics` produces, in order. -/
def regressorMetricKeys : List String :=
  ["example_count", "mean_absolute_error", "mean_squared_error",
   "sum_on_label", "mean_on_label", "r2_score", "max_error",
   "mean_absolute_percentage_error"]

/-- Modelled from the spec: the classifier global metrics of the default
evaluator restricted to the probability-free, rational-valued subset
(`accuracy`, `example_count`). -/
def _get_classifier_metrics (y yPred : List ℚ) : List (String × ℚ) :=
  [("accuracy", skAccuracyScore y yPred),
   ("example_count", (y.length : ℚ))]

/-! ## Models, datasets, evaluators -/

/-- The pyfunc model wrapper as the evaluators consume it: a prediction
function over the feature table. -/
structure PyFuncModelM where
  predict : List (List ℚ) → List ℚ

/-- The normalized evaluation dataset view the evaluators consume: feature
rows, labels, and the dataset name. -/
structure DatasetM where
  features : List (List ℚ)
  labels : List ℚ
  name : String

/-- A registered evaluator: its applicability test and its evaluation
function.  `run` also reports what it persisted to the tracking run. -/
structure EvaluatorM where
  canEvaluate : String → PyVal → Bool
  run : PyFuncModelM → String → DatasetM → PyVal → List CustomMetricM →
    Except String (EvaluationResultM × RunPersisted)

/-- From the source `dummy_evaluator.py` (`DummyEvaluator._log_metrics`):
the run key under which the dummy evaluator persists a metric —
`<key>_on_<dataset_name>`. -/
def dummyLoggedMetricKey (key datasetName : String) : String :=
  key ++ "_on_" ++ datasetName

/-- From the source `dummy_evaluator.py`: `DummyEvaluator.evaluate` —
classifier branch computes `accuracy_score` and two confusion-matrix
artifacts named `confusion_matrix_on_<name>` /
`confusion_matrix_image_on_<name>`; regressor branch computes
`mean_absolute_error` and `mean_squared_error` with no artifacts; any other
model type raises.  Metrics are persisted under
`<key>_on_<dataset_name>`.  Plot and matrix contents are opaque. -/
def dummyEvaluatorRun (model : PyFuncModelM) (modelType : String)
    (ds : DatasetM) (_cfg : PyVal) (_cms : List CustomMetricM) :
    Except String (EvaluationResultM × RunPersisted) :=
  let yPred := model.predict ds.features
  let y := ds.labels
  if modelType == "classifier" then
    let metrics := [("accuracy_score", skAccuracyScore y yPred)]
    let cmName := "confusion_matrix_on_" ++ ds.name
    let cmImgName := "confusion_matrix_image_on_" ++ ds.name
    let artifacts : List (String × EvaluationArtifactM) :=
      [(cmName, ⟨cmName ++ ".csv", .csv, .pobj "confusion_matrix"⟩),
       (cmImgName, ⟨cmImgName ++ ".png", .image, .pobj "confusion_matrix_image"⟩)]
    .ok (⟨metrics, artifacts⟩,
         ⟨metrics.map fun p => (dummyLoggedMetricKey p.1 ds.name, p.2),
          [cmName ++ ".csv", cmImgName ++ ".png"]⟩)
  else if modelType == "regressor" then
    let metrics := [("mean_absolute_error", skMeanAbsoluteError y yPred),
                    ("mean_squared_error", skMeanSquaredError y yPred)]
    .ok (⟨metrics, []⟩,
         ⟨metrics.map fun p => (dummyLoggedMetricKey p.1 ds.name, p.2), []⟩)
  else .error ("Unsupported model type " ++ modelType)

/-- The dummy evaluator of the source plugin:
`can_evaluate` accepts exactly the classifier and regressor model types. -/
def dummyEvaluatorM : EvaluatorM :=
  ⟨fun mt _ => mt == "classifier" || mt == "regressor", dummyEvaluatorRun⟩

/-- The run key under which the default evaluator persists a metric —
`<key>_on_data_<dataset_name>`. -/
def defaultLoggedMetricKey (key dsName : String) : String :=
  key ++ "_on_data_" ++ dsName

/-- The run path under which the default evaluator persists an artifact —
`<name>_on_data_<dataset_name>.<ext>`. -/
def defaultLoggedArtifactFile (name dsName : String) (kind : ArtifactKind) : String :=
  name ++ "_on_data_" ++ dsName ++ "." ++ artifactExt kind

/-- Modelled from the spec: the runtime type dispatch that picks a concrete
artifact kind for an in-memory custom-metric artifact object (mappings,
lists and numbers serialize as JSON, strings as text, anything else is
pickled; the image/csv/parquet cases of the missing source require runtime
types this embedding does not carry). -/
def inferArtifactKind : PyVal → ArtifactKind
  | .pdict _ => .json
  | .plist _ => .json
  | .pnum _ => .json
  | .pstr _ => .text
  | _ => .pickle

/-- The collision message raised when an artifact name is logged twice
within one evaluator run. -/
def artifactCollisionMessage (name : String) : String :=
  "The artifact " ++ name ++
    " cannot be logged because there already exists an artifact with the same name."

/-- Modelled from the spec: log one custom-metric artifact into the
evaluator run, failing on a name already present (whether builtin or from
an earlier custom metric). -/
def logArtifactChecked (arts : List (String × EvaluationArtifactM))
    (dsName name : String) (v : PyVal) :
    Except String (List (String × EvaluationArtifactM)) :=
  if (arts.lookup name).isSome then .error (artifactCollisionMessage name)
  else
    let kind := inferArtifactKind v
    .ok (arts ++ [(name, ⟨defaultLoggedArtifactFile name dsName kind, kind, v⟩)])

/-- Log a whole artifacts mapping in order. -/
def logArtifactsList (dsName : String)
    (arts : List (String × EvaluationArtifactM)) :
    List (String × PyVal) → Except String (List (String × EvaluationArtifactM))
  | [] => .ok arts
  | (n, v) :: rest => do
      let next ← logArtifactChecked arts dsName n v
      logArtifactsList dsName next rest

/-- Python `dict.update` on an association list: keys of `upd` replace keys
of `old`, fresh keys are appended (re-assigned keys are listed at their new
position; no claim observes entry order). -/
def dictUpdate {α : Type} (old upd : List (String × α)) : List (String × α) :=
  old.filter (fun p => (upd.lookup p.1).isNone) ++ upd

/-- Modelled from the spec: the custom-metrics phase of the default
evaluator — invoke each supplied custom metric in declaration order through
`_evaluate_custom_metric`, accumulate metrics by dictionary update, and log
every returned artifact with the duplicate-name check. -/
def runCustomMetrics (dsName : String) :
    Nat → List (String × ℚ) → List (String × EvaluationArtifactM) →
    List CustomMetricM →
    Except String (List (String × ℚ) × List (String × EvaluationArtifactM))
  | _, accM, accA, [] => .ok (accM, accA)
  | idx, accM, accA, cm :: rest => do
      let (ms, artsOpt) ← _evaluate_custom_metric cm idx
      let accA2 ← logArtifactsList dsName accA (artsOpt.getD [])
      runCustomMetrics dsName (idx + 1) (dictUpdate accM ms) accA2 rest

/-- Modelled from the spec: `DefaultEvaluator.evaluate` restricted to the
rational-valued computation the claims touch — predictions, builtin
metrics per model type, a builtin classifier artifact, the custom-metrics
phase, and persistence of every metric key under
`<key>_on_data_<dataset_name>` and every artifact under
`<name>_on_data_<dataset_name>.<ext>`, with the unsuffixed keys returned
in the result object.  The probability-based curves, self-score and
explainability artifacts of the missing source are outside the embedding
(they add more suffixed artifacts of the same shape). -/
def defaultEvaluatorRun (model : PyFuncModelM) (modelType : String)
    (ds : DatasetM) (_cfg : PyVal) (cms : List CustomMetricM) :
    Except String (EvaluationResultM × RunPersisted) := do
  let yPred := model.predict ds.features
  let builtinMetrics :=
    if modelType == "classifier" then _get_classifier_metrics ds.labels yPred
    else _get_regressor_metrics ds.labels yPred
  let builtinArtifacts : List (String × EvaluationArtifactM) :=
    if modelType == "classifier" then
      [("confusion_matrix",
        ⟨defaultLoggedArtifactFile "confusion_matrix" ds.name .image, .image,
         .pobj "confusion_matrix_plot"⟩)]
    else []
  let (metrics, artifacts) ← runCustomMetrics ds.name 0 builtinMetrics builtinArtifacts cms
  .ok (⟨metrics, artifacts⟩,
       ⟨metrics.map fun p => (defaultLoggedMetricKey p.1 ds.name, p.2),
        artifacts.map fun p => defaultLoggedArtifactFile p.1 ds.name p.2.kind⟩)

/-- The default evaluator: `can_evaluate` accepts exactly the classifier
and regressor model types. -/
def defaultEvaluatorM : EvaluatorM :=
  ⟨fun mt _ => mt == "classifier" || mt == "regressor", defaultEvaluatorRun⟩

/-! ## Evaluator selection and the evaluate() orchestrator

Embedding of `_normalize_evaluators_and_evaluator_config_args` and
`evaluate()` from the missing `base.py`, pinned by
`tests/models/test_evaluation.py::test_normalize_evaluators_and_evaluator_config_args`
and `::test_evaluator_interface`. -/

/-- Whether a config dictionary nests properly: every top-level key is a
known evaluator name and every value is itself a dictionary. -/
def checkNestedConfig (names : List String) (c : List (String × PyVal)) : Bool :=
  c.all fun p =>
    names.contains p.1 && (match p.2 with | .pdict _ => true | _ => false)

/-- View a string-keyed config as a Python dictionary value. -/
def toPyDict (c : List (String × PyVal))  : PyVal :=
  .pdict (c.map fun p => (.kstr p.1, p.2))

/-- The error raised when `evaluators=None` and a flat config is given with
more than the default evaluator registered. -/
def flatConfigErrorMessage : String :=
  "If `evaluators` argument is None, all available evaluators will be used. If only the default evaluator is available, the `evaluator_config` argument is interpreted as the config dictionary for the default evaluator. Otherwise, the `evaluator_config` argument must be a dictionary mapping each evaluator name to its own evaluator config dictionary."

/-- The error raised when an evaluator name list comes with a config that
does not nest per evaluator name. -/
def listConfigErrorMessage : String :=
  "If `evaluators` argument is an evaluator name list, evaluator_config must be a dict contains mapping from evaluator name to individual evaluator config dict."

/-- Modelled from the spec:
`_normalize_evaluators_and_evaluator_config_args` — pinned by its test:
with `evaluators=None` every registered evaluator is selected, and a given
config must nest per evaluator name unless the registry holds exactly the
default evaluator, in which case a flat config is interpreted as the
default evaluator sub-config; a single name selects that evaluator with the
config as its sub-config; a name list requires a nested config.  (The
multiple-evaluators warning of the source is logging, not data flow, and is
not carried.) -/
def _normalize_evaluators_and_evaluator_config_args
    (registryNames : List String)
    (evaluators : Option (String ⊕ List String))
    (evaluatorConfig : Option (List (String × PyVal))) :
    Except String (List String × List (String × PyVal)) :=
  match evaluators with
  | none =>
      match evaluatorConfig with
      | none => .ok (registryNames, [])
      | some c =>
          if registryNames == ["default"] then
            if checkNestedConfig registryNames c then .ok (registryNames, c)
            else .ok (registryNames, [("default", toPyDict c)])
          else
            if checkNestedConfig registryNames c then .ok (registryNames, c)
            else .error flatConfigErrorMessage
  | some (.inl name) =>
      .ok ([name],
        match evaluatorConfig with
        | none => []
        | some c => [(name, toPyDict c)])
  | some (.inr names) =>
      match evaluatorConfig with
      | none => .ok (names, [])
      | some c =>
          if checkNestedConfig names c then .ok (names, c)
          else .error listConfigErrorMessage

/-- The sub-config passed to one evaluator (empty dictionary when absent). -/
def confFor (confMap : List (String × PyVal)) (name : String) : PyVal :=
  (confMap.lookup name).getD (.pdict [])

/-- Nothing persisted yet. -/
def emptyRunPersisted : RunPersisted := ⟨[], []⟩

/-- Union of what two evaluators persisted. -/
def mergePersisted (a b : RunPersisted) : RunPersisted :=
  ⟨a.metrics ++ b.metrics, a.artifacts ++ b.artifacts⟩

/-- Merge two evaluation results by key union; a later evaluator silently
overwrites an earlier one on a shared key. -/
def mergeResults (a b : EvaluationResultM) : EvaluationResultM :=
  ⟨dictUpdate a.metrics b.metrics, dictUpdate a.artifacts b.artifacts⟩

/-- Merge an optional later result onto an optional earlier one. -/
def mergeOptResults :
    Option EvaluationResultM → Option EvaluationResultM → Option EvaluationResultM
  | none, b => b
  | some a, none => some a
  | some a, some b => some (mergeResults a b)

/-- The error raised when every registered evaluator declined. -/
def noEvaluatorMessage : String :=
  "The model could not be evaluated by any of the registered evaluators, please verify that the model type and other configs are set correctly."

/-- Modelled from the spec: the evaluator loop of `evaluate()` — walk the
selected evaluator names in order, skip names that are not registered, ask
`can_evaluate` and skip a decliner without invoking it, otherwise invoke
`evaluate` and merge.  Returns the names whose `evaluate` ran, the union of
everything persisted, and the merged result (`none` when no evaluator
accepted). -/
def _run_evaluators (registry : List (String × EvaluatorM))
    (model : PyFuncModelM) (modelType : String) (ds : DatasetM)
    (confMap : List (String × PyVal)) (cms : List CustomMetricM) :
    List String →
    Except String (List String × RunPersisted × Option EvaluationResultM)
  | [] => .ok ([], emptyRunPersisted, none)
  | n :: rest => do
      let head ←
        (match registry.lookup n with
        | none =>
            Except.ok ([], emptyRunPersisted, (none : Option EvaluationResultM))
        | some ev =>
            if ev.canEvaluate modelType (confFor confMap n) then do
              let (r, per) ← ev.run model modelType ds (confFor confMap n) cms
              Except.ok ([n], per, some r)
            else Except.ok ([], emptyRunPersisted, none))
      let tail ← _run_evaluators registry model modelType ds confMap cms rest
      .ok (head.1 ++ tail.1, mergePersisted head.2.1 tail.2.1,
           mergeOptResults head.2.2 tail.2.2)

/-- Modelled from the spec: the post-normalization body of `evaluate()` —
run the selected evaluators and fail when none accepted. -/
def _evaluate (registry : List (String × EvaluatorM)) (model : PyFuncModelM)
    (modelType : String) (ds : DatasetM) (confMap : List (String × PyVal))
    (cms : List CustomMetricM) (names : List String) :
    Except String (EvaluationResultM × RunPersisted) := do
  let (_, per, found) ← _run_evaluators registry model modelType ds confMap cms names
  match found with
  | none => .error noEvaluatorMessage
  | some r => .ok (r, per)

/-- Modelled from the spec: resolution of the `model` argument — a uri
string is loaded through the model store, an already-loaded pyfunc model is
used as is. -/
def resolveModel (store : List (String × PyFuncModelM)) :
    String ⊕ PyFuncModelM → Except String PyFuncModelM
  | .inl uri =>
      match store.lookup uri with
      | some m => .ok m
      | none => .error ("Could not load model from uri " ++ uri)
  | .inr m => .ok m

/-- Modelled from the spec: the public `evaluate()` entry point — normalize
the evaluator selection and config, resolve the model input, construct the
evaluation dataset, run the selected evaluators, and return the merged
result together with everything persisted to the run. -/
def evaluateAPI (registry : List (String × EvaluatorM))
    (store : List (String × PyFuncModelM)) (model : String ⊕ PyFuncModelM)
    (data : List (List ℚ)) (targets : List ℚ) (modelType : String)
    (datasetName : String) (evaluators : Option (String ⊕ List String))
    (evaluatorConfig : Option (List (String × PyVal)))
    (cms : List CustomMetricM) :
    Except String (EvaluationResultM × RunPersisted) := do
  let (names, confMap) ← _normalize_evaluators_and_evaluator_config_args
    (registry.map Prod.fst) evaluators evaluatorConfig
  let m ← resolveModel store model
  let ds : DatasetM := ⟨data, targets, datasetName⟩
  _evaluate registry m modelType ds confMap cms names

/-- The unsuffixed metric keys of an evaluation outcome (empty on error). -/
def resultMetricKeys (e : Except String (EvaluationResultM × RunPersisted)) :
    List String :=
  match e with
  | .ok (r, _) => r.metrics.map Prod.fst
  | .error _ => []

/-- The metric keys an evaluation outcome persisted to the run (empty on
error). -/
def persistedMetricKeys (e : Except String (EvaluationResultM × RunPersisted)) :
    List String :=
  match e with
  | .ok (_, per) => per.metrics.map Prod.fst
  | .error _ => []

/-- An evaluator whose `can_evaluate` declines everything (the shape the
no-applicable-evaluator test builds by mocking `can_evaluate` to false). -/
def decliningEvaluator : EvaluatorM := ⟨fun _ _ => false, dummyEvaluatorRun⟩

/-- The message suffix `_evaluate_custom_metric` picks for a non-conforming
return value of each shape. -/
def errorSuffixFor : PyVal → String
  | .pnone => " returned None."
  | .pdict _ => badMetricsSuffix
  | .ptuple [.pdict m, _] =>
      if !validMetricsEntries m then badMetricsSuffix else badArtifactsSuffix
  | _ => badFormatSuffix

set_option maxRecDepth 10000

/-! ## Helper lemmas -/

/-- Association-list lookup distributes over append. -/
theorem lookup_append {α : Type} (k : String) :
    ∀ (a b : List (String × α)),
      (a ++ b).lookup k = ((a.lookup k).or (b.lookup k))
  | [], b => by simp [List.lookup]
  | (k', v) :: a, b => by
      rw [List.cons_append, List.lookup_cons, List.lookup_cons]
      cases h : k == k'
      · simpa using lookup_append k a b
      · simp

/-- Lookup of a mapped key in a key-value view of a list with distinct
keys finds the mapped value. -/
theorem lookup_map_self {α β : Type} (f : α → String) (g : α → β) :
    ∀ (l : List α), (l.map f).Nodup → ∀ a ∈ l,
      (l.map fun x => (f x, g x)).lookup (f a) = some (g a)
  | [], _, a, ha => absurd ha (List.not_mem_nil a)
  | x :: xs, hnd, a, ha => by
      rw [List.map_cons, List.nodup_cons] at hnd
      rcases List.mem_cons.mp ha with h | h
      · subst h
        simp [List.lookup_cons]
      · have hne : (f a == f x) = false := by
          refine beq_eq_false_iff_ne.mpr fun he => hnd.1 ?_
          exact he ▸ List.mem_map_of_mem f h
        simp only [List.map_cons, List.lookup_cons, hne]
        exact lookup_map_self f g xs hnd.2 a h

/-- Lookup of an absent key in a key-value view of a list is `none`. -/
theorem lookup_map_none {α β : Type} (f : α → String) (g : α → β) (k : String) :
    ∀ (l : List α), k ∉ l.map f →
      (l.map fun x => (f x, g x)).lookup k = none
  | [], _ => rfl
  | x :: xs, hk => by
      have h1 : (k == f x) = false := by
        refine beq_eq_false_iff_ne.mpr fun he => hk ?_
        exact he ▸ List.mem_cons_self (f x) (xs.map f)
      have h2 : k ∉ xs.map f := fun hm => hk (List.mem_cons_of_mem _ hm)
      simp only [List.map_cons, List.lookup_cons, h1]
      exact lookup_map_none f g k xs h2

/-- A nonempty all-numeric label list is not all-boolean. -/
theorem all_isBool_eq_false_of_all_isNum {l : List LabelVal}
    (hne : l.isEmpty = false) (hnum : l.all LabelVal.isNum = true) :
    l.all LabelVal.isBool = false := by
  cases l with
  | nil => simp at hne
  | cons v vs =>
      rw [List.all_cons] at hnum
      have hv : v.isNum = true := ((Bool.and_eq_true _ _).mp hnum).1
      cases v with
      | ln q => rw [List.all_cons]; rfl
      | lb b => simp [LabelVal.isNum] at hv
      | ls s => simp [LabelVal.isNum] at hv

/-- A nonempty all-numeric label list is not all-string. -/
theorem all_isStr_eq_false_of_all_isNum {l : List LabelVal}
    (hne : l.isEmpty = false) (hnum : l.all LabelVal.isNum = true) :
    l.all LabelVal.isStr = false := by
  cases l with
  | nil => simp at hne
  | cons v vs =>
      rw [List.all_cons] at hnum
      have hv : v.isNum = true := ((Bool.and_eq_true _ _).mp hnum).1
      cases v with
      | ln q => rw [List.all_cons]; rfl
      | lb b => simp [LabelVal.isNum] at hv
      | ls s => simp [LabelVal.isNum] at hv

/-- The code-side categorical test agrees with the claim-side classifier
condition. -/
theorem isCategoricalLabels_eq_claim (l : LabelsM) :
    isCategoricalLabels l = claimClassifierLabels l := by
  obtain ⟨cat, vs⟩ := l
  simp only [isCategoricalLabels, claimClassifierLabels, convertedDtype]
  split_ifs with h1 h2 h3 h4 h5 <;> simp_all

/-- The code-side continuous test agrees with the claim-side regressor
condition. -/
theorem isContinuousLabels_eq_claim (l : LabelsM) :
    isContinuousLabels l = claimRegressorLabels l := by
  obtain ⟨cat, vs⟩ := l
  simp only [isContinuousLabels, claimRegressorLabels, claimClassifierLabels,
    convertedDtype]
  split_ifs with h1 h2 h3 h4 h5
  · simp [h1]
  · simp [h2]
  · simp [h3]
  · have hi := ((Bool.and_eq_true _ _).mp h4).2
    simp [hi]
  · obtain ⟨hne, hn⟩ := (Bool.and_eq_true _ _).mp h5
    have hcat : cat = false := by simpa using h1
    have hne' : vs.isEmpty = false := by simpa using hne
    have hb := all_isBool_eq_false_of_all_isNum hne' hn
    have hs := all_isStr_eq_false_of_all_isNum hne' hn
    have hi : vs.all LabelVal.isIntegral = false := by
      cases hx : vs.all LabelVal.isIntegral
      · rfl
      · exact absurd (by simp [hne, hx]) h4
    simp [hcat, hb, hs, hi, hn, hne']
  · have h5' : (!vs.isEmpty && vs.all LabelVal.isNum) = false := by
      cases hx : (!vs.isEmpty && vs.all LabelVal.isNum)
      · rfl
      · exact absurd hx h5
    simp [h5']

/-! ## C7 — model-type inference from labels -/

/-- C7: For every label array, model-type inference returns exactly what the
claim describes — boolean labels, string-categorical labels, and
declared-categorical labels give `"classifier"`, purely continuous numeric
labels give `"regressor"`, and any other label array gives no inferred type
(the `None`/"unknown" outcome: the evaluator does not silently guess). -/
theorem C7_infer_model_type_matches_claim (l : LabelsM) :
    _infer_model_type_by_labels l =
      (if claimClassifierLabels l then some "classifier"
       else if claimRegressorLabels l then some "regressor"
       else none) := by
  rw [_infer_model_type_by_labels, isCategoricalLabels_eq_claim,
    isContinuousLabels_eq_claim]

/-! ## C8 — mode/mean background reduction -/

/-- `isEmpty` commutes with `map`. -/
theorem isEmpty_map {α β : Type} (f : α → β) (l : List α) :
    (l.map f).isEmpty = l.isEmpty := by cases l <;> rfl

/-- `all` after `map` tests the composite predicate. -/
theorem all_map' {α β : Type} (f : α → β) (p : β → Bool) :
    ∀ (l : List α), (l.map f).all p = l.all fun x => p (f x)
  | [] => rfl
  | x :: xs => by rw [List.map_cons, List.all_cons, List.all_cons, all_map' f p xs]

/-- A claim-side continuous numeric column has floating dtype. -/
theorem isContinuousCol_of_claimCont (c : ColM)
    (h : claimContinuousNumericCol c = true) : isContinuousCol c = true := by
  obtain ⟨hnum, hni⟩ := (Bool.and_eq_true _ _).mp h
  obtain ⟨hcatne, hall⟩ := (Bool.and_eq_true _ _).mp hnum
  obtain ⟨hcat, hne⟩ := (Bool.and_eq_true _ _).mp hcatne
  have hcat' : c.isCategoricalDtype = false := by simpa using hcat
  have hne' : c.nonMissing.isEmpty = false := by simpa using hne
  have hvne : (c.nonMissing.map CellVal.toLabelVal).isEmpty = false := by
    rw [isEmpty_map]; exact hne'
  have hvnum : (c.nonMissing.map CellVal.toLabelVal).all LabelVal.isNum = true := by
    rw [all_map']; exact hall
  have hb := all_isBool_eq_false_of_all_isNum hvne hvnum
  have hs := all_isStr_eq_false_of_all_isNum hvne hvnum
  have hint : (c.nonMissing.map CellVal.toLabelVal).all LabelVal.isIntegral = false := by
    rw [all_map']
    simpa using hni
  rw [isContinuousCol, convertedDtype, hcat']
  simp [hvne, hvnum, hb, hs, hint]

/-- A claim-side categorical, boolean, or text column does not have floating
dtype. -/
theorem isContinuousCol_eq_false_of_catBoolText (c : ColM)
    (h : claimCategoricalBoolOrTextCol c = true) : isContinuousCol c = false := by
  obtain ⟨hne, hor⟩ := (Bool.and_eq_true _ _).mp h
  have hne' : (c.nonMissing.map CellVal.toLabelVal).isEmpty = false := by
    rw [isEmpty_map]; simpa using hne
  rw [isContinuousCol, convertedDtype]
  cases hcat : c.isCategoricalDtype
  · rw [hcat] at hor
    cases hb : c.nonMissing.all fun v => (CellVal.toLabelVal v).isBool
    · have hs : c.nonMissing.all (fun v => (CellVal.toLabelVal v).isStr) = true := by
        simpa [hb] using hor
      have hs' : (c.nonMissing.map CellVal.toLabelVal).all LabelVal.isStr = true := by
        rw [all_map']; exact hs
      have hnb : ¬ ∀ a ∈ c.nonMissing, a.toLabelVal.isBool = true := by
        simpa [List.all_eq_true] using hb
      simp [hne', hs', hnb]
    · have hb' : (c.nonMissing.map CellVal.toLabelVal).all LabelVal.isBool = true := by
        rw [all_map']; exact hb
      simp [hne', hb']
  · simp

/-- A claim-side integer-valued numeric column does not have floating
dtype. -/
theorem isContinuousCol_eq_false_of_integral (c : ColM)
    (hnum : claimNumericCol c = true)
    (hint : c.nonMissing.all (fun v => (CellVal.toLabelVal v).isIntegral) = true) :
    isContinuousCol c = false := by
  obtain ⟨hcatne, hall⟩ := (Bool.and_eq_true _ _).mp hnum
  obtain ⟨hcat, hne⟩ := (Bool.and_eq_true _ _).mp hcatne
  have hcat' : c.isCategoricalDtype = false := by simpa using hcat
  have hne' : (c.nonMissing.map CellVal.toLabelVal).isEmpty = false := by
    rw [isEmpty_map]; simpa using hne
  have hvnum : (c.nonMissing.map CellVal.toLabelVal).all LabelVal.isNum = true := by
    rw [all_map']; exact hall
  have hb := all_isBool_eq_false_of_all_isNum hne' hvnum
  have hs := all_isStr_eq_false_of_all_isNum hne' hvnum
  have hint' : (c.nonMissing.map CellVal.toLabelVal).all LabelVal.isIntegral = true := by
    rw [all_map']; exact hint
  rw [isContinuousCol, convertedDtype, hcat']
  simp [hne', hb, hs, hint']

/-- Lookup of a continuous column in the mode-or-mean reduction finds its
mean. -/
theorem mode_or_mean_lookup_cont (df : List ColM) (c : ColM)
    (hnd : (df.map ColM.name).Nodup) (hc : c ∈ df)
    (hcont : isContinuousCol c = true) :
    (_compute_df_mode_or_mean df).lookup c.name = some (.cq (colMean c)) := by
  have hmem : c ∈ df.filter isContinuousCol := List.mem_filter.mpr ⟨hc, hcont⟩
  have hndA : ((df.filter isContinuousCol).map ColM.name).Nodup :=
    List.Nodup.sublist (List.Sublist.map _ (List.filter_sublist df)) hnd
  have hA := lookup_map_self ColM.name (fun x => CellVal.cq (colMean x))
    (df.filter isContinuousCol) hndA c hmem
  rw [_compute_df_mode_or_mean, lookup_append, hA]
  rfl

/-- Lookup of a non-continuous column in the mode-or-mean reduction finds
its mode. -/
theorem mode_or_mean_lookup_not_cont (df : List ColM) (c : ColM)
    (hnd : (df.map ColM.name).Nodup) (hc : c ∈ df)
    (hcont : isContinuousCol c = false) :
    (_compute_df_mode_or_mean df).lookup c.name = some (colMode c) := by
  have hnotmem : c.name ∉ (df.filter isContinuousCol).map ColM.name := by
    intro hm
    obtain ⟨c', hc', hname⟩ := List.mem_map.mp hm
    have hc'df := (List.mem_filter.mp hc').1
    have hcc : c' = c := List.inj_on_of_nodup_map hnd hc'df hc hname
    subst hcc
    have hpos := (List.mem_filter.mp hc').2
    rw [hcont] at hpos
    simp at hpos
  have hA := lookup_map_none ColM.name (fun x => CellVal.cq (colMean x)) c.name
    (df.filter isContinuousCol) hnotmem
  have hmem : c ∈ df.filter (fun x => !isContinuousCol x) :=
    List.mem_filter.mpr ⟨hc, by simp [hcont]⟩
  have hndB : ((df.filter (fun x => !isContinuousCol x)).map ColM.name).Nodup :=
    List.Nodup.sublist (List.Sublist.map _ (List.filter_sublist df)) hnd
  have hB := lookup_map_self ColM.name colMode
    (df.filter (fun x => !isContinuousCol x)) hndB c hmem
  rw [_compute_df_mode_or_mean, lookup_append, hA, hB]
  rfl

/-- C8 (amended): For every dataframe with distinct column names, the
mode-or-mean reduction maps each categorical, boolean, or text column to
its mode, each numeric column containing a non-integral value to its mean
over the non-missing values, and — as the counterexample forces — each
integer-valued numeric column to its mode, not its mean. -/
theorem C8_mode_or_mean_per_column (df : List ColM) (c : ColM)
    (hnd : (df.map ColM.name).Nodup) (hc : c ∈ df) :
    (claimContinuousNumericCol c = true →
      (_compute_df_mode_or_mean df).lookup c.name = some (.cq (colMean c))) ∧
    (claimCategoricalBoolOrTextCol c = true →
      (_compute_df_mode_or_mean df).lookup c.name = some (colMode c)) ∧
    (claimNumericCol c = true →
      c.nonMissing.all (fun v => (CellVal.toLabelVal v).isIntegral) = true →
      (_compute_df_mode_or_mean df).lookup c.name = some (colMode c)) := by
  refine ⟨fun h => ?_, fun h => ?_, fun h1 h2 => ?_⟩
  · exact mode_or_mean_lookup_cont df c hnd hc (isContinuousCol_of_claimCont c h)
  · exact mode_or_mean_lookup_not_cont df c hnd hc
      (isContinuousCol_eq_false_of_catBoolText c h)
  · exact mode_or_mean_lookup_not_cont df c hnd hc
      (isContinuousCol_eq_false_of_integral c h1 h2)

/-- C8 counterexample: column `a` of the test dataframe is numeric with
mean 3, yet the reduction maps it to 2 (its mode) — the claim that every
numeric column is mapped to its mean is false on the code. -/
theorem C8_counterexample :
    claimNumericCol ⟨"a", false, [some (.cq 2), some (.cq 2), some (.cq 5)]⟩ = true ∧
    colMean ⟨"a", false, [some (.cq 2), some (.cq 2), some (.cq 5)]⟩ = 3 ∧
    (_compute_df_mode_or_mean modeOrMeanTestDf).lookup "a" ≠
      some (.cq (colMean ⟨"a", false, [some (.cq 2), some (.cq 2), some (.cq 5)]⟩)) ∧
    (_compute_df_mode_or_mean modeOrMeanTestDf).lookup "a" = some (.cq 2) := by
  refine ⟨by with_unfolding_all decide, by with_unfolding_all decide,
    by with_unfolding_all decide, by with_unfolding_all decide⟩

/-- C8 witness: the theorem applied to the test dataframe — column `f`
(numeric with a missing value and non-integral entries) is mapped to its
missing-value-excluding mean 2, and column `e` (text) to its mode. -/
theorem C8_witness :
    (_compute_df_mode_or_mean modeOrMeanTestDf).lookup "f" =
      some (.cq (colMean ⟨"f", false, [some (.cq (3 / 2)), some (.cq (5 / 2)), none]⟩)) ∧
    (_compute_df_mode_or_mean modeOrMeanTestDf).lookup "e" =
      some (colMode ⟨"e", false, [some (.cs "abc"), some (.cs "b"), some (.cs "abc")]⟩) :=
  ⟨(C8_mode_or_mean_per_column modeOrMeanTestDf
      ⟨"f", false, [some (.cq (3 / 2)), some (.cq (5 / 2)), none]⟩
      (by with_unfolding_all decide) (by with_unfolding_all decide)).1
    (by with_unfolding_all decide),
   (C8_mode_or_mean_per_column modeOrMeanTestDf
      ⟨"e", false, [some (.cs "abc"), some (.cs "b"), some (.cs "abc")]⟩
      (by with_unfolding_all decide) (by with_unfolding_all decide)).2.1
    (by with_unfolding_all decide)⟩

/-! ## C3 — custom-metric return contract -/

/-- Any message built on the custom-metric header names the offending
function right after the fixed prefix. -/
theorem customMetricError_names_function (name : String) (index : Nat) (s : String) :
    ∃ rest, customMetricHeader name index ++ s =
      "Custom metric function " ++ name ++ rest :=
  ⟨" at index " ++ (toString index ++ (" in the custom_metrics parameter" ++ s)), by
    simp [customMetricHeader, String.append_assoc]⟩

/-- Characterization of `_evaluate_custom_metric`: a conforming return is
destructured, a non-conforming one raises the shape-appropriate message on
the header naming the function. -/
theorem ecm_characterization (name : String) (index : Nat) (ret : PyVal) :
    _evaluate_custom_metric ⟨name, ret⟩ index =
      (if conformingCustomMetricReturn ret then
        .ok (destructureCustomMetricReturn ret)
      else .error (customMetricHeader name index ++ errorSuffixFor ret)) := by
  cases ret with
  | pnone => rfl
  | pbool b => rfl
  | pnum q => rfl
  | pstr s => rfl
  | plist xs => rfl
  | pobj t => rfl
  | pdict m =>
      cases hv : validMetricsEntries m <;>
        simp [_evaluate_custom_metric, conformingCustomMetricReturn,
          destructureCustomMetricReturn, errorSuffixFor, hv]
  | ptuple xs =>
      rcases xs with _ | ⟨x, _ | ⟨y, _ | ⟨z, rest⟩⟩⟩
      · rfl
      · cases x <;> rfl
      · cases x with
        | pdict m =>
            cases y with
            | pdict a =>
                cases hv : validMetricsEntries m <;>
                  cases ha : validArtifactEntries a <;>
                    simp [_evaluate_custom_metric, conformingCustomMetricReturn,
                      destructureCustomMetricReturn, errorSuffixFor, hv, ha]
            | pnone =>
                cases hv : validMetricsEntries m <;>
                  simp [_evaluate_custom_metric, conformingCustomMetricReturn,
                    destructureCustomMetricReturn, errorSuffixFor, hv]
            | pbool b =>
                cases hv : validMetricsEntries m <;>
                  simp [_evaluate_custom_metric, conformingCustomMetricReturn,
                    destructureCustomMetricReturn, errorSuffixFor, hv]
            | pnum q =>
                cases hv : validMetricsEntries m <;>
                  simp [_evaluate_custom_metric, conformingCustomMetricReturn,
                    destructureCustomMetricReturn, errorSuffixFor, hv]
            | pstr s =>
                cases hv : validMetricsEntries m <;>
                  simp [_evaluate_custom_metric, conformingCustomMetricReturn,
                    destructureCustomMetricReturn, errorSuffixFor, hv]
            | plist l =>
                cases hv : validMetricsEntries m <;>
                  simp [_evaluate_custom_metric, conformingCustomMetricReturn,
                    destructureCustomMetricReturn, errorSuffixFor, hv]
            | ptuple t =>
                cases hv : validMetricsEntries m <;>
                  simp [_evaluate_custom_metric, conformingCustomMetricReturn,
                    destructureCustomMetricReturn, errorSuffixFor, hv]
            | pobj t =>
                cases hv : validMetricsEntries m <;>
                  simp [_evaluate_custom_metric, conformingCustomMetricReturn,
                    destructureCustomMetricReturn, errorSuffixFor, hv]
        | pnone => rfl
        | pbool b => rfl
        | pnum q => rfl
        | pstr s => rfl
        | plist l => rfl
        | ptuple t => rfl
        | pobj t => rfl
      · cases x with
        | pdict m =>
            simp [_evaluate_custom_metric, conformingCustomMetricReturn,
              destructureCustomMetricReturn, errorSuffixFor]
        | pnone => rfl
        | pbool b => rfl
        | pnum q => rfl
        | pstr s => rfl
        | plist l => rfl
        | ptuple t => rfl
        | pobj t => rfl

/-- C3: For every custom-metric function, `_evaluate_custom_metric` raises a
descriptive error naming the offending function if and only if the value
the function returned violates the contract (returning `None` or any shape
other than a metrics mapping or a metrics/artifacts pair fails; a
non-string metrics key or non-numeric metrics value fails; a non-string
artifacts key fails); a conforming return is accepted and destructured into
`(metrics, artifacts)`. -/
theorem C3_custom_metric_contract (name : String) (index : Nat) (ret : PyVal) :
    ((_evaluate_custom_metric ⟨name, ret⟩ index).isOk = true ↔
      conformingCustomMetricReturn ret = true) ∧
    (∀ msg, _evaluate_custom_metric ⟨name, ret⟩ index = .error msg →
      ∃ rest, msg = "Custom metric function " ++ name ++ rest) ∧
    (conformingCustomMetricReturn ret = true →
      _evaluate_custom_metric ⟨name, ret⟩ index =
        .ok (destructureCustomMetricReturn ret)) := by
  refine ⟨?_, ?_, ?_⟩
  · rw [ecm_characterization]
    cases hc : conformingCustomMetricReturn ret <;>
      simp [hc, Except.isOk, Except.toBool]
  · intro msg h
    rw [ecm_characterization] at h
    cases hc : conformingCustomMetricReturn ret
    · rw [hc] at h
      have hmsg : customMetricHeader name index ++ errorSuffixFor ret = msg := by
        simpa using h
      obtain ⟨rest, hr⟩ := customMetricError_names_function name index (errorSuffixFor ret)
      exact ⟨rest, by rw [← hmsg, hr]⟩
    · rw [hc] at h
      simp at h
  · intro hc
    rw [ecm_characterization, hc]
    simp

/-- C3 witness: the theorem applied at concrete returns — a conforming
metrics-only dictionary is destructured with no artifacts, and the `None`
return of `dummy_fn` produces an error naming `dummy_fn`. -/
theorem C3_witness :
    _evaluate_custom_metric ⟨"example_custom_metric", .pdict [(.kstr "a", .pnum 2)]⟩ 0 =
      .ok ([("a", 2)], none) ∧
    (∃ rest, customMetricHeader "dummy_fn" 0 ++ " returned None." =
      "Custom metric function " ++ "dummy_fn" ++ rest) :=
  ⟨(C3_custom_metric_contract "example_custom_metric" 0
      (.pdict [(.kstr "a", .pnum 2)])).2.2 rfl,
   (C3_custom_metric_contract "dummy_fn" 0 .pnone).2.1
      (customMetricHeader "dummy_fn" 0 ++ " returned None.") rfl⟩

/-! ## C6 — dataset content hashing -/

/-- C6: The dataset content hash is deterministic in the underlying data;
two arrays agreeing in length and on the sampled head and tail windows
collide (in particular inserting 100 versus 99 at unsampled middle position
10 of the 21-element test array); and each tested single-element mutation at
a sampled position (first element, last element) as well as the length
change of the test suite change the digest. -/
theorem C6_dataset_hash_properties :
    (∀ (f1 f2 : List (List Nat)) (l1 l2 : List Nat), f1 = f2 → l1 = l2 →
      datasetHash f1 l1 = datasetHash f2 l2) ∧
    (∀ d1 d2 : List Nat, d1.length = d2.length →
      NUM_SAMPLE_ROWS_FOR_HASH * 2 ≤ d1.length →
      d1.take NUM_SAMPLE_ROWS_FOR_HASH = d2.take NUM_SAMPLE_ROWS_FOR_HASH →
      d1.drop (d1.length - NUM_SAMPLE_ROWS_FOR_HASH) =
        d2.drop (d2.length - NUM_SAMPLE_ROWS_FOR_HASH) →
      getMd5 d1 = getMd5 d2) ∧
    (getMd5 hashTestList0 ≠ getMd5 hashTestList1 ∧
     getMd5 hashTestList0 ≠ getMd5 hashTestList2 ∧
     getMd5 hashTestList0 ≠ getMd5 hashTestList3 ∧
     getMd5 hashTestList1 ≠ getMd5 hashTestList2 ∧
     getMd5 hashTestList1 ≠ getMd5 hashTestList3 ∧
     getMd5 hashTestList2 ≠ getMd5 hashTestList3) ∧
    getMd5 hashTestList3 = getMd5 hashTestList4 := by
  refine ⟨fun f1 f2 l1 l2 hf hl => by rw [hf, hl],
    ?_, ⟨by decide, by decide, by decide, by decide, by decide, by decide⟩, by decide⟩
  intro d1 d2 hlen h10 htake hdrop
  unfold getMd5 genMd5Stream
  have hnl : ¬ d1.length < NUM_SAMPLE_ROWS_FOR_HASH * 2 := by omega
  have hnl2 : ¬ d2.length < NUM_SAMPLE_ROWS_FOR_HASH * 2 := by
    rw [← hlen]; exact hnl
  rw [if_neg hnl, if_neg hnl2, htake, hdrop, hlen]

/-- C6 witness: determinism and the sampled-window collision, each
instantiated at concrete data. -/
theorem C6_witness :
    datasetHash [[1, 2], [3, 4]] [0, 1] = datasetHash [[1, 2], [3, 4]] [0, 1] ∧
    getMd5 hashTestList3 = getMd5 hashTestList4 :=
  ⟨C6_dataset_hash_properties.1 _ _ _ _ rfl rfl,
   C6_dataset_hash_properties.2.1 hashTestList3 hashTestList4
      (by decide) (by decide) (by decide) (by decide)⟩

/-! ## C2 — no applicable evaluator -/

/-- The evaluator loop invokes nothing, persists nothing, and produces no
result when every selected evaluator declines. -/
theorem run_evaluators_all_decline (registry : List (String × EvaluatorM))
    (model : PyFuncModelM) (mt : String) (ds : DatasetM)
    (confMap : List (String × PyVal)) (cms : List CustomMetricM) :
    ∀ (names : List String),
      (∀ n ∈ names, ∀ ev, registry.lookup n = some ev →
        ev.canEvaluate mt (confFor confMap n) = false) →
      _run_evaluators registry model mt ds confMap cms names =
        .ok ([], emptyRunPersisted, none)
  | [], _ => rfl
  | n :: rest, h => by
      have htail := run_evaluators_all_decline registry model mt ds confMap cms rest
        (fun m hm ev hev => h m (List.mem_cons_of_mem _ hm) ev hev)
      rw [_run_evaluators]
      cases hl : registry.lookup n with
      | none =>
          simp only [htail, emptyRunPersisted, mergePersisted, mergeOptResults]
          rfl
      | some ev =>
          have hce := h n (List.mem_cons_self _ _) ev hl
          simp only [hce, htail, emptyRunPersisted, mergePersisted, mergeOptResults,
            Bool.false_eq_true, if_false]
          rfl

/-- C2: When every registered evaluator answers false to `can_evaluate`,
`evaluate()` raises the error stating the model could not be evaluated by
any of the registered evaluators, and no evaluator is invoked — nothing is
persisted and no partial result exists. -/
theorem C2_no_applicable_evaluator (registry : List (String × EvaluatorM))
    (model : PyFuncModelM) (mt : String) (ds : DatasetM)
    (confMap : List (String × PyVal)) (cms : List CustomMetricM)
    (names : List String)
    (h : ∀ n ∈ names, ∀ ev, registry.lookup n = some ev →
      ev.canEvaluate mt (confFor confMap n) = false) :
    _evaluate registry model mt ds confMap cms names = .error noEvaluatorMessage ∧
    _run_evaluators registry model mt ds confMap cms names =
      .ok ([], emptyRunPersisted, none) ∧
    ∃ pre post, noEvaluatorMessage =
      pre ++ "could not be evaluated by any of the registered evaluators" ++ post := by
  have hloop := run_evaluators_all_decline registry model mt ds confMap cms names h
  exact ⟨by simp only [_evaluate, hloop]; rfl, hloop,
    ⟨"The model ",
     ", please verify that the model type and other configs are set correctly.",
     rfl⟩⟩

/-- C2 witness: a registry holding a single declining evaluator makes the
orchestrator raise without invoking anything. -/
theorem C2_witness :
    _evaluate [("test_evaluator1", decliningEvaluator)] ⟨fun _ => []⟩ "classifier"
      ⟨[], [], "iris_dataset"⟩ [] [] ["test_evaluator1"] = .error noEvaluatorMessage :=
  (C2_no_applicable_evaluator [("test_evaluator1", decliningEvaluator)]
    ⟨fun _ => []⟩ "classifier" ⟨[], [], "iris_dataset"⟩ [] [] ["test_evaluator1"]
    (by
      intro n hn ev hev
      have hn' : n = "test_evaluator1" := by simpa using hn
      subst hn'
      have hev' : decliningEvaluator = ev := by
        simpa [List.lookup] using hev
      rw [← hev']
      rfl)).1

/-! ## C5 — evaluator-config normalization -/

/-- A config with an unregistered top-level key never nests properly. -/
theorem checkNestedConfig_eq_false_of_unregistered (names : List String)
    (c : List (String × PyVal)) (p : String × PyVal) (hp : p ∈ c)
    (hk : names.contains p.1 = false) : checkNestedConfig names c = false := by
  cases h : checkNestedConfig names c
  · rfl
  · exfalso
    have hall := List.all_eq_true.mp h p hp
    rw [hk] at hall
    simp at hall

/-- C5 (amended): With `evaluators=None` and a config holding an
unregistered top-level key, normalization raises the
config-must-map-evaluator-names error whenever the registry holds anything
besides exactly the default evaluator; with exactly the default evaluator
registered, the flat config is instead accepted as the default evaluator
sub-config. -/
theorem C5_flat_config_handling (registryNames : List String)
    (c : List (String × PyVal)) (p : String × PyVal) (hp : p ∈ c)
    (hk : registryNames.contains p.1 = false) :
    (registryNames ≠ ["default"] →
      _normalize_evaluators_and_evaluator_config_args registryNames none (some c) =
        .error flatConfigErrorMessage) ∧
    (registryNames = ["default"] →
      _normalize_evaluators_and_evaluator_config_args registryNames none (some c) =
        .ok (["default"], [("default", toPyDict c)])) ∧
    ∃ pre post, flatConfigErrorMessage =
      pre ++ "argument must be a dictionary mapping each evaluator name" ++ post := by
  have hchk := checkNestedConfig_eq_false_of_unregistered registryNames c p hp hk
  refine ⟨fun hne => ?_, fun heq => ?_,
    ⟨"If `evaluators` argument is None, all available evaluators will be used. If only the default evaluator is available, the `evaluator_config` argument is interpreted as the config dictionary for the default evaluator. Otherwise, the `evaluator_config` ",
     " to its own evaluator config dictionary.", rfl⟩⟩
  · have hbeq : (registryNames == ["default"]) = false := beq_eq_false_iff_ne.mpr hne
    simp [_normalize_evaluators_and_evaluator_config_args, hbeq, hchk]
  · subst heq
    simp [_normalize_evaluators_and_evaluator_config_args, hchk]

/-- C5 counterexample: with only the default evaluator registered, the flat
config whose key `a` is no evaluator name is accepted (interpreted as the
default evaluator sub-config) — the claim that such a call must raise is
false on the code. -/
theorem C5_counterexample :
    _normalize_evaluators_and_evaluator_config_args ["default"] none
        (some [("a", .pnum 3)]) =
      .ok (["default"], [("default", .pdict [(.kstr "a", .pnum 3)])]) := rfl

/-- C5 witness: the amended theorem applied at the test inputs — the
two-evaluator registry raises on the flat config, the default-only registry
wraps it. -/
theorem C5_witness :
    _normalize_evaluators_and_evaluator_config_args ["default", "dummy_evaluator"]
        none (some [("a", .pnum 3)]) = .error flatConfigErrorMessage ∧
    _normalize_evaluators_and_evaluator_config_args ["default"] none
        (some [("a", .pnum 3)]) =
      .ok (["default"], [("default", toPyDict [("a", .pnum 3)])]) :=
  ⟨(C5_flat_config_handling ["default", "dummy_evaluator"] [("a", .pnum 3)]
      ("a", .pnum 3) (List.mem_cons_self _ _) rfl).1 (by decide),
   (C5_flat_config_handling ["default"] [("a", .pnum 3)]
      ("a", .pnum 3) (List.mem_cons_self _ _) rfl).2.1 rfl⟩

/-! ## C10 — model uri and loaded model are equivalent inputs -/

/-- C10: Passing a model uri that the store resolves to `m` through
`evaluate()` is the same as passing the loaded model `m` itself — the whole
outcome (result object and persisted run state) is identical. -/
theorem C10_model_uri_equivalent_to_loaded
    (registry : List (String × EvaluatorM))
    (store : List (String × PyFuncModelM)) (uri : String) (m : PyFuncModelM)
    (data : List (List ℚ)) (targets : List ℚ) (mt dsName : String)
    (evs : Option (String ⊕ List String))
    (conf : Option (List (String × PyVal))) (cms : List CustomMetricM)
    (h : store.lookup uri = some m) :
    evaluateAPI registry store (.inl uri) data targets mt dsName evs conf cms =
      evaluateAPI registry store (.inr m) data targets mt dsName evs conf cms := by
  have hres : resolveModel store (.inl uri) = resolveModel store (.inr m) := by
    simp [resolveModel, h]
  unfold evaluateAPI
  rw [hres]

/-- C10 witness: the equivalence applied at a concrete logged model. -/
theorem C10_witness :
    evaluateAPI [("dummy_evaluator", dummyEvaluatorM)]
        [("models:/reg_model/1", ⟨fun _ => [1, 2]⟩)]
        (.inl "models:/reg_model/1") [[0], [0]] [1, 2] "regressor"
        "diabetes_dataset" (some (.inl "dummy_evaluator")) none [] =
      evaluateAPI [("dummy_evaluator", dummyEvaluatorM)]
        [("models:/reg_model/1", ⟨fun _ => [1, 2]⟩)]
        (.inr ⟨fun _ => [1, 2]⟩) [[0], [0]] [1, 2] "regressor"
        "diabetes_dataset" (some (.inl "dummy_evaluator")) none [] :=
  C10_model_uri_equivalent_to_loaded [("dummy_evaluator", dummyEvaluatorM)]
    [("models:/reg_model/1", ⟨fun _ => [1, 2]⟩)] "models:/reg_model/1"
    ⟨fun _ => [1, 2]⟩ [[0], [0]] [1, 2] "regressor" "diabetes_dataset"
    (some (.inl "dummy_evaluator")) none [] rfl

/-! ## C1 — metric and artifact key suffixing -/

/-- Binding an ok value runs the continuation. -/
theorem exceptBind_ok {α β : Type} (x : α) (f : α → Except String β) :
    (Except.ok x >>= f) = f x := rfl

/-- Binding an error short-circuits. -/
theorem exceptBind_error {α β : Type} (e : String) (f : α → Except String β) :
    ((Except.error e : Except String α) >>= f) =
      (Except.error e : Except String β) := rfl

/-- C1 (amended): For every evaluation run by the default evaluator, each
persisted metric key is the result key suffixed with
`_on_data_<dataset_name>`, each persisted artifact path is the result
artifact key suffixed with `_on_data_<dataset_name>` plus its serialization
extension, and the returned result keys are the unsuffixed ones — in
particular a regressor evaluation with `dataset_name` persists
`mean_squared_error_on_data_<dataset_name>` while
`result.metrics["mean_squared_error"]` stays unsuffixed.  (The claim does
not hold for every registered evaluator: see the counterexample.) -/
theorem C1_default_evaluator_suffixing (model : PyFuncModelM)
    (data : List (List ℚ)) (targets : List ℚ) (dsName aname : String)
    (av : PyVal) :
    ∃ r per,
      evaluateAPI [("default", defaultEvaluatorM)] [] (.inr model) data targets
          "regressor" dsName (some (.inl "default")) none
          [⟨"example_custom_metric", .ptuple [.pdict [], .pdict [(.kstr aname, av)]]⟩] =
        .ok (r, per) ∧
      per.metrics = r.metrics.map (fun p => (defaultLoggedMetricKey p.1 dsName, p.2)) ∧
      per.artifacts = r.artifacts.map
        (fun p => defaultLoggedArtifactFile p.1 dsName p.2.kind) ∧
      r.metrics.map Prod.fst = regressorMetricKeys ∧
      r.artifacts.map Prod.fst = [aname] ∧
      r.metrics.lookup "mean_squared_error" =
        some (skMeanSquaredError targets (model.predict data)) ∧
      (defaultLoggedMetricKey "mean_squared_error" dsName,
        skMeanSquaredError targets (model.predict data)) ∈ per.metrics :=
  ⟨_, _, rfl, rfl, rfl, rfl, rfl, rfl,
    List.mem_cons_of_mem _ (List.mem_cons_of_mem _ (List.mem_cons_self _ _))⟩

/-- C1 counterexample: the bundled dummy evaluator, driven through
`evaluate()` on a regressor with `dataset_name="foo"`, persists
`mean_squared_error_on_foo` — not `mean_squared_error_on_data_foo` — so the
claim that every evaluation suffixes persisted keys with
`_on_data_<dataset.name>` is false on the code (result keys do stay
unsuffixed). -/
theorem C1_counterexample :
    persistedMetricKeys (evaluateAPI [("dummy_evaluator", dummyEvaluatorM)] []
        (.inr ⟨fun _ => [1, 2]⟩) [[0], [0]] [1, 2] "regressor" "foo"
        (some (.inl "dummy_evaluator")) none []) =
      ["mean_absolute_error_on_foo", "mean_squared_error_on_foo"] ∧
    resultMetricKeys (evaluateAPI [("dummy_evaluator", dummyEvaluatorM)] []
        (.inr ⟨fun _ => [1, 2]⟩) [[0], [0]] [1, 2] "regressor" "foo"
        (some (.inl "dummy_evaluator")) none []) =
      ["mean_absolute_error", "mean_squared_error"] ∧
    "mean_squared_error_on_data_foo" ∉
      persistedMetricKeys (evaluateAPI [("dummy_evaluator", dummyEvaluatorM)] []
        (.inr ⟨fun _ => [1, 2]⟩) [[0], [0]] [1, 2] "regressor" "foo"
        (some (.inl "dummy_evaluator")) none []) :=
  ⟨rfl, rfl, by decide⟩

/-! ## C4 — duplicate artifact names are fatal -/

/-- C4: Two custom metrics that both produce an artifact with the same name
make `evaluate()` fail the whole evaluation with the collision error naming
that artifact, and a custom metric clashing with a builtin artifact name
(`confusion_matrix` of a classifier evaluation) fails the same way. -/
theorem C4_duplicate_artifact_name (n : String) (v1 v2 : PyVal)
    (model : PyFuncModelM) (data : List (List ℚ)) (targets : List ℚ)
    (dsName : String) :
    evaluateAPI [("default", defaultEvaluatorM)] [] (.inr model) data targets
        "regressor" dsName (some (.inl "default")) none
        [⟨"example_custom_metric_1", .ptuple [.pdict [], .pdict [(.kstr n, v1)]]⟩,
         ⟨"example_custom_metric_2", .ptuple [.pdict [], .pdict [(.kstr n, v2)]]⟩] =
      .error (artifactCollisionMessage n) ∧
    evaluateAPI [("default", defaultEvaluatorM)] [] (.inr model) data targets
        "classifier" dsName (some (.inl "default")) none
        [⟨"example_custom_metric", .ptuple [.pdict [],
            .pdict [(.kstr "confusion_matrix", v1)]]⟩] =
      .error (artifactCollisionMessage "confusion_matrix") ∧
    ∃ rest, artifactCollisionMessage n = "The artifact " ++ n ++ rest := by
  refine ⟨?_, rfl, ⟨" cannot be logged because there already exists an artifact with the same name.", rfl⟩⟩
  simp [evaluateAPI, _normalize_evaluators_and_evaluator_config_args, resolveModel,
    _evaluate, _run_evaluators, defaultEvaluatorM, defaultEvaluatorRun, confFor,
    runCustomMetrics, _evaluate_custom_metric, validMetricsEntries, typedArtifacts,
    typedMetrics, logArtifactsList, logArtifactChecked, dictUpdate, List.lookup,
    validArtifactEntries, Option.getD, mergeOptResults, mergePersisted,
    exceptBind_ok, exceptBind_error]

/-! ## C9 — EvaluationResult save/load round trip -/

/-- Metrics serialization round-trips through `metrics.json`. -/
theorem decodeMetricEntries_roundtrip :
    ∀ (l : List (String × ℚ)),
      decodeMetricEntries (l.map fun p => (p.1, .num p.2)) = .ok l
  | [] => rfl
  | p :: rest => by
      simp [decodeMetricEntries, decodeMetricEntries_roundtrip rest, exceptBind_ok]

/-- The artifact class name written by `save` resolves back to the artifact
kind on `load`. -/
theorem artifactKindOfClassName_roundtrip (k : ArtifactKind) :
    artifactKindOfClassName (artifactClassName k) = some k := by
  cases k <;> rfl

/-- Artifact metadata and serialized files round-trip when every artifact
file is found under its saved name. -/
theorem decodeArtifactEntries_roundtrip (dir : List (String × PyVal)) :
    ∀ (l : List (String × EvaluationArtifactM)),
      (∀ p ∈ l, dir.lookup (artifactFileName p.1 p.2) = some p.2.content) →
      decodeArtifactEntries dir
        (l.map fun p => (p.1, Json.obj [("uri", .str p.2.uri),
          ("class_name", .str (artifactClassName p.2.kind))])) = .ok l
  | [], _ => rfl
  | p :: rest, h => by
      have hh := h p (List.mem_cons_self _ _)
      have ht := decodeArtifactEntries_roundtrip dir rest
        (fun q hq => h q (List.mem_cons_of_mem _ hq))
      obtain ⟨pn, pa⟩ := p
      obtain ⟨uri, kind, content⟩ := pa
      rw [artifactFileName] at hh
      simp [decodeArtifactEntries, decodeArtifactEntry,
        artifactKindOfClassName_roundtrip, hh, ht, exceptBind_ok]

/-- C9: `save` followed by `load` restores the evaluation result exactly —
metrics equal and every artifact restored with its name, uri, class and
content — whenever the serialized artifact file names are distinct; and
`save` writes exactly the flat `metrics.json` mapping, the
`artifacts_metadata.json` mapping of each artifact name to its uri and
class name, and the `artifacts/` files named `<artifact_name>.<ext>`. -/
theorem C9_save_load_roundtrip (r : EvaluationResultM)
    (hnd : (r.artifacts.map fun p => artifactFileName p.1 p.2).Nodup) :
    EvaluationResultM.load r.save = .ok r ∧
    r.save.artifactsDir =
      r.artifacts.map (fun p => (artifactFileName p.1 p.2, p.2.content)) ∧
    r.save.metricsFile = .obj (r.metrics.map fun p => (p.1, .num p.2)) ∧
    r.save.artifactsMetadataFile = .obj (r.artifacts.map fun p =>
      (p.1, .obj [("uri", .str p.2.uri),
                  ("class_name", .str (artifactClassName p.2.kind))])) := by
  have hlk : ∀ p ∈ r.artifacts,
      r.save.artifactsDir.lookup (artifactFileName p.1 p.2) = some p.2.content :=
    fun p hp => lookup_map_self (fun q => artifactFileName q.1 q.2)
      (fun q => q.2.content) r.artifacts hnd p hp
  refine ⟨?_, rfl, rfl, rfl⟩
  have hdec := decodeArtifactEntries_roundtrip r.save.artifactsDir r.artifacts hlk
  simp [EvaluationResultM.load, EvaluationResultM.save, decodeMetricsJson,
    decodeMetricEntries_roundtrip, exceptBind_ok] at hdec ⊢
  simp [hdec, exceptBind_ok]

/-- C9 witness: the round trip at a concrete result holding the two
artifacts of the classifier round-trip test. -/
theorem C9_witness :
    EvaluationResultM.load (EvaluationResultM.save
      ⟨[("accuracy_score", 1)],
       [("confusion_matrix_on_iris_dataset",
         ⟨"runs:/x/confusion_matrix_on_iris_dataset.csv", .csv, .pobj "cm"⟩),
        ("confusion_matrix_image_on_iris_dataset",
         ⟨"runs:/x/confusion_matrix_image_on_iris_dataset.png", .image,
          .pobj "cm_image"⟩)]⟩) =
      .ok ⟨[("accuracy_score", 1)],
       [("confusion_matrix_on_iris_dataset",
         ⟨"runs:/x/confusion_matrix_on_iris_dataset.csv", .csv, .pobj "cm"⟩),
        ("confusion_matrix_image_on_iris_dataset",
         ⟨"runs:/x/confusion_matrix_image_on_iris_dataset.png", .image,
          .pobj "cm_image"⟩)]⟩ :=
  (C9_save_load_roundtrip
    ⟨[("accuracy_score", 1)],
     [("confusion_matrix_on_iris_dataset",
       ⟨"runs:/x/confusion_matrix_on_iris_dataset.csv", .csv, .pobj "cm"⟩),
      ("confusion_matrix_image_on_iris_dataset",
       ⟨"runs:/x/confusion_matrix_image_on_iris_dataset.png", .image,
        .pobj "cm_image"⟩)]⟩ (by decide)).1

end MLEval
